import Mathlib

/-!
Verification development for the fleet-provisioning core of the
`safe_network` node manager (`sn_node_manager/src/add_services/config.rs`).

The Rust source is shallowly embedded: `PortRange` with its `parse` and
`validate` operations, and the three service-context builders
(`InstallNodeServiceCtxBuilder`, `InstallAuditorServiceCtxBuilder`,
`InstallFaucetServiceCtxBuilder`) producing a `ServiceInstallCtx`
descriptor.  Machine integers (`u16`, `usize`) are modelled as `Nat`
with explicit `% 65536` where 16-bit overflow matters.  Opaque external
value types (`Multiaddr`, `RewardsAddress`, `SocketAddr`, `Ipv4Addr`,
`PathBuf`) are, as the spec prescribes, consumed only through their
canonical string form and are therefore modelled by `String`.
-/

namespace SafeNetwork

/-! ## External integer parsing (Rust std `u16::from_str`) -/

/-- Models Rust std `u16::from_str` on a list of characters: an optional
leading `'+'` sign, then one or more ASCII digits, value at most 65535.
Error strings are those of std's `ParseIntError` display. -/
def u16FromChars (cs : List Char) : Except String Nat :=
  match cs with
  | [] => .error "cannot parse integer from empty string"
  | c :: rest =>
    let digits := if c = '+' then rest else c :: rest
    if digits.isEmpty then .error "invalid digit found in string"
    else if digits.all (fun d => d.isDigit) then
      let v := digits.foldl (fun acc d => acc * 10 + (d.toNat - 48)) 0
      if v ≤ 65535 then .ok v else .error "number too large to fit in target type"
    else .error "invalid digit found in string"

/-- Models Rust std `u16::from_str` on a string. -/
def u16FromStr (s : String) : Except String Nat := u16FromChars s.data

/-- Models Rust `str::split('-')`: the list of chunks of the character
list separated by `'-'`; an empty input yields one empty chunk, and each
separator ends a chunk (so separators at the ends produce empty chunks). -/
def splitDash : List Char → List (List Char)
  | [] => [[]]
  | c :: rest =>
    if c = '-' then [] :: splitDash rest
    else
      match splitDash rest with
      | [] => [[c]]
      | h :: t => (c :: h) :: t

/-! ## PortRange (config.rs lines 21-68) -/

/-- `PortRange`: one fixed port or an inclusive contiguous interval.
Ports are `u16` in the source, modelled as `Nat`. -/
inductive PortRange where
  | Single (port : Nat)
  | Range (start stop : Nat)
deriving DecidableEq, Repr

/-- `PortRange::parse` (config.rs lines 28-43): a bare `u16` yields
`Single`; otherwise the text is split on `'-'`, must have exactly two
parts, both parsing as `u16`, with the first strictly below the second. -/
def PortRange.parse (s : String) : Except String PortRange :=
  match u16FromStr s with
  | .ok port => .ok (.Single port)
  | .error _ =>
    match splitDash s.data with
    | [a, b] =>
      match u16FromChars a with
      | .error e => .error e
      | .ok start =>
        match u16FromChars b with
        | .error e => .error e
        | .ok stop =>
          if start ≥ stop then .error "End port must be greater than start port"
          else .ok (.Range start stop)
    | _ => .error "Port range must be in the format 'start-end'"

/-- `PortRange::validate` (config.rs lines 46-67).  The source computes
`end - start + 1` in `u16` arithmetic; under release-mode wrapping
semantics this is `((65536 + stop - start) % 65536 + 1) % 65536`, which
for `start ≤ stop < 65536` equals `(stop - start + 1) % 65536`. -/
def PortRange.validate (r : PortRange) (count : Nat) : Except String Unit :=
  match r with
  | .Single _ =>
    if count ≠ 1 then
      .error ("The count (" ++ Nat.repr count ++ ") does not match the number of ports (1)")
    else .ok ()
  | .Range start stop =>
    let port_count := ((65536 + stop - start) % 65536 + 1) % 65536
    if count ≠ port_count then
      .error ("The count (" ++ Nat.repr count ++ ") does not match the number of ports ("
        ++ Nat.repr port_count ++ ")")
    else .ok ()

/-! ## Log format (external `sn_logging` crate) -/

/-- Modelled from the spec: the log-format selection consumed by the node
builder as a flag value.  The type lives in the `sn_logging` crate, which
is not under `src/`; the unit tests in `config.rs` pin the Json variant's
string to "json". -/
inductive LogFormat where
  | Default
  | Json
deriving DecidableEq, Repr

/-- Modelled from the spec: `LogFormat::as_str`, the canonical string of
a log-format selection. -/
def LogFormat.asStr : LogFormat → String
  | .Default => "default"
  | .Json => "json"

/-! ## EVM network selection (external `evmlib` crate re-exported by `sn_evm`) -/

/-- Modelled from the spec: the three mandatory fields of a custom EVM
network selection (spec section 3, `EvmNetworkSelection`).  The type lives
in the `evmlib` crate, which is not under `src/`; each field is consumed
through its canonical string form. -/
structure CustomNetwork where
  rpc_url_http : String
  payment_token_address : String
  data_payments_address : String
deriving DecidableEq, Repr

/-- Modelled from the spec: the EVM network selection, a closed set of
named public networks or a custom network carrying three mandatory
fields (spec sections 3 and 4.4).  Defined in the `evmlib` crate, not
under `src/`. -/
inductive EvmNetwork where
  | ArbitrumOne
  | ArbitrumSepolia
  | Custom (network : CustomNetwork)
deriving DecidableEq, Repr

/-- Modelled from the spec: the canonical token of an EVM network
selection (spec section 4.4).  The tokens of `ArbitrumOne` and `Custom`
are pinned by the unit tests in `config.rs` ("evm-arbitrum-one",
"evm-custom"). -/
def EvmNetwork.toString : EvmNetwork → String
  | .ArbitrumOne => "evm-arbitrum-one"
  | .ArbitrumSepolia => "evm-arbitrum-sepolia"
  | .Custom _ => "evm-custom"

/-- Whether an EVM network selection is the custom variant. -/
def EvmNetwork.isCustom : EvmNetwork → Bool
  | .Custom _ => true
  | _ => false

/-! ## Service descriptor (external `service_manager` crate)

`ServiceLabel` and its parser belong to the external `service_manager`
crate; the spec treats label syntax as opaque (an unparsable label fails
with an InvalidIdentity error).  The builders are therefore parameterised
over an arbitrary label parser `parseLabel : String → Option ServiceLabel`;
every theorem below holds for every such parser. -/

/-- A parsed service identity/label, opaque to this core. -/
structure ServiceLabel where
  label : String
deriving DecidableEq, Repr

/-- `ServiceInstallCtx` from the `service_manager` crate: the
kind-agnostic service descriptor produced by the builders (spec section
3, `ServiceDescriptor`). -/
structure ServiceInstallCtx where
  args : List String
  autostart : Bool
  contents : Option String
  environment : Option (List (String × String))
  label : ServiceLabel
  program : String
  username : Option String
  working_directory : Option String
deriving DecidableEq, Repr

/-! ## Storage-node builder (config.rs lines 70-188) -/

/-- `InstallNodeServiceCtxBuilder` (config.rs lines 70-94).  The Rust
field `local` is called `local_mode` here because `local` is a Lean
keyword; all other field names are the source's. -/
structure InstallNodeServiceCtxBuilder where
  autostart : Bool
  bootstrap_peers : List String
  data_dir_path : String
  env_variables : Option (List (String × String))
  evm_network : EvmNetwork
  genesis : Bool
  home_network : Bool
  local_mode : Bool
  log_dir_path : String
  log_format : Option LogFormat
  name : String
  max_archived_log_files : Option Nat
  max_log_files : Option Nat
  metrics_port : Option Nat
  node_ip : Option String
  node_port : Option Nat
  owner : Option String
  rewards_address : String
  rpc_socket_addr : String
  safenode_path : String
  service_user : Option String
  upnp : Bool
deriving DecidableEq, Repr

/-- The argument list assembled by `InstallNodeServiceCtxBuilder::build`
(config.rs lines 99-175), translated statement by statement: each Rust
conditional push block becomes one `let args := ...` re-binding. -/
def InstallNodeServiceCtxBuilder.args (b : InstallNodeServiceCtxBuilder) : List String :=
  let args : List String := ["--rpc", b.rpc_socket_addr,
    "--root-dir", b.data_dir_path,
    "--log-output-dest", b.log_dir_path]
  let args := if b.genesis then args ++ ["--first"] else args
  let args := if b.home_network then args ++ ["--home-network"] else args
  let args := if b.local_mode then args ++ ["--local"] else args
  let args := match b.log_format with
    | some log_format => args ++ ["--log-format", log_format.asStr]
    | none => args
  let args := if b.upnp then args ++ ["--upnp"] else args
  let args := match b.node_ip with
    | some node_ip => args ++ ["--ip", node_ip]
    | none => args
  let args := match b.node_port with
    | some node_port => args ++ ["--port", Nat.repr node_port]
    | none => args
  let args := match b.metrics_port with
    | some metrics_port => args ++ ["--metrics-server-port", Nat.repr metrics_port]
    | none => args
  let args := match b.owner with
    | some owner => args ++ ["--owner", owner]
    | none => args
  let args := match b.max_archived_log_files with
    | some log_files => args ++ ["--max-archived-log-files", Nat.repr log_files]
    | none => args
  let args := match b.max_log_files with
    | some log_files => args ++ ["--max-log-files", Nat.repr log_files]
    | none => args
  let args := if !b.bootstrap_peers.isEmpty then
      args ++ ["--peer", String.intercalate "," b.bootstrap_peers]
    else args
  let args := args ++ ["--rewards-address", b.rewards_address]
  let args := args ++ [b.evm_network.toString]
  let args := match b.evm_network with
    | .Custom custom_network =>
        args ++ ["--rpc-url", custom_network.rpc_url_http,
          "--payment-token-address", custom_network.payment_token_address,
          "--data-payments-address", custom_network.data_payments_address]
    | _ => args
  args

/-- `InstallNodeServiceCtxBuilder::build` (config.rs lines 97-187):
parse the service label (failure aborts the build), then produce the
descriptor with the assembled argument list. -/
def InstallNodeServiceCtxBuilder.build (parseLabel : String → Option ServiceLabel)
    (b : InstallNodeServiceCtxBuilder) : Option ServiceInstallCtx :=
  match parseLabel b.name with
  | none => none
  | some label => some {
      args := b.args
      autostart := b.autostart
      contents := none
      environment := b.env_variables
      label := label
      program := b.safenode_path
      username := b.service_user
      working_directory := none }

/-! ## Auditor builder (config.rs lines 222-266) -/

/-- `InstallAuditorServiceCtxBuilder` (config.rs lines 222-231). -/
structure InstallAuditorServiceCtxBuilder where
  auditor_path : String
  beta_encryption_key : Option String
  bootstrap_peers : List String
  env_variables : Option (List (String × String))
  log_dir_path : String
  name : String
  service_user : String
deriving DecidableEq, Repr

/-- The argument list assembled by `InstallAuditorServiceCtxBuilder::build`
(config.rs lines 235-253). -/
def InstallAuditorServiceCtxBuilder.args (b : InstallAuditorServiceCtxBuilder) : List String :=
  let args : List String := ["--log-output-dest", b.log_dir_path]
  let args := if !b.bootstrap_peers.isEmpty then
      args ++ ["--peer", String.intercalate "," b.bootstrap_peers]
    else args
  let args := match b.beta_encryption_key with
    | some beta_encryption_key => args ++ ["--beta-encryption-key", beta_encryption_key]
    | none => args
  args

/-- `InstallAuditorServiceCtxBuilder::build` (config.rs lines 234-265):
always autostart, always runs as the configured service user; label
parse failure aborts the build. -/
def InstallAuditorServiceCtxBuilder.build (parseLabel : String → Option ServiceLabel)
    (b : InstallAuditorServiceCtxBuilder) : Option ServiceInstallCtx :=
  match parseLabel b.name with
  | none => none
  | some label => some {
      args := b.args
      autostart := true
      contents := none
      environment := b.env_variables
      label := label
      program := b.auditor_path
      username := some b.service_user
      working_directory := none }

/-! ## Faucet builder (config.rs lines 268-310) -/

/-- `InstallFaucetServiceCtxBuilder` (config.rs lines 268-277).  The Rust
field `local` is called `local_mode` here (Lean keyword); it is carried
but never consulted by `build`, exactly as in the source. -/
structure InstallFaucetServiceCtxBuilder where
  bootstrap_peers : List String
  env_variables : Option (List (String × String))
  faucet_path : String
  local_mode : Bool
  log_dir_path : String
  name : String
  service_user : String
deriving DecidableEq, Repr

/-- The argument list assembled by `InstallFaucetServiceCtxBuilder::build`
(config.rs lines 281-297): log destination, optional peer list, then the
fixed trailing "server" subcommand token. -/
def InstallFaucetServiceCtxBuilder.args (b : InstallFaucetServiceCtxBuilder) : List String :=
  let args : List String := ["--log-output-dest", b.log_dir_path]
  let args := if !b.bootstrap_peers.isEmpty then
      args ++ ["--peer", String.intercalate "," b.bootstrap_peers]
    else args
  let args := args ++ ["server"]
  args

/-- `InstallFaucetServiceCtxBuilder::build` (config.rs lines 280-309):
always autostart, always runs as the configured service user; label
parse failure aborts the build. -/
def InstallFaucetServiceCtxBuilder.build (parseLabel : String → Option ServiceLabel)
    (b : InstallFaucetServiceCtxBuilder) : Option ServiceInstallCtx :=
  match parseLabel b.name with
  | none => none
  | some label => some {
      args := b.args
      autostart := true
      contents := none
      environment := b.env_variables
      label := label
      program := b.faucet_path
      username := some b.service_user
      working_directory := none }

/-! ## Spec-side definitions

These definitions follow the spec's words, for comparison with the
source-derived definitions above: the cardinality of a port range, the
well-formedness of a port range, and the textual shapes accepted by
`PortRange::parse` (spec section 4.1). -/

/-- Spec-side: the mathematical cardinality of a port range — 1 for
`Single`, `stop − start + 1` for `Range`. -/
def PortRange.cardinality : PortRange → Nat
  | .Single _ => 1
  | .Range start stop => stop - start + 1

/-- Spec-side: a well-formed port range has `u16` ports and, for `Range`,
a start strictly below the stop. -/
def PortRange.WellFormed : PortRange → Prop
  | .Single port => port ≤ 65535
  | .Range start stop => start < stop ∧ stop ≤ 65535

/-- The numeric value denoted by a list of decimal digit characters. -/
def digitsVal (t : List Char) : Nat :=
  t.foldl (fun acc d => acc * 10 + (d.toNat - 48)) 0

/-- Spec-side: `cs` is a bare integer denoting the 16-bit value `p` — an
optional leading `'+'` sign, then one or more decimal digits whose value
is `p ≤ 65535` (the syntax accepted by Rust's unsigned-integer parser). -/
def SpecBareU16 (cs : List Char) (p : Nat) : Prop :=
  ∃ t, (cs = '+' :: t ∨ cs = t) ∧ t ≠ [] ∧ (∀ c ∈ t, c.isDigit = true)
    ∧ digitsVal t = p ∧ p ≤ 65535

/-- Spec-side: `cs` has the shape `start-end` — a bare 16-bit integer
denoting `a`, a `'-'`, and a bare 16-bit integer denoting `b`. -/
def SpecRangeShape (cs : List Char) (a b : Nat) : Prop :=
  ∃ x y, cs = x ++ '-' :: y ∧ SpecBareU16 x a ∧ SpecBareU16 y b

/-- The cardinality-mismatch error text of `PortRange::validate`,
carrying the declared count and the required port count. -/
def cardinalityMismatchMsg (declared required : Nat) : String :=
  "The count (" ++ Nat.repr declared ++ ") does not match the number of ports ("
    ++ Nat.repr required ++ ")"

/-- The extra arguments contributed by the EVM network selection after
its canonical token: empty for a named network, the three flag/value
pairs for `Custom` (config.rs lines 164-175). -/
def evmExtraArgs : EvmNetwork → List String
  | .Custom custom_network =>
      ["--rpc-url", custom_network.rpc_url_http,
       "--payment-token-address", custom_network.payment_token_address,
       "--data-payments-address", custom_network.data_payments_address]
  | _ => []

/-- The free-string field values of a node configuration all differ from
the token `tok`.  Used to state flag-counting properties: a degenerate
configuration could place the literal text of a flag inside an opaque
field value (an owner string, a path, an address), which would add a
token equal to the flag to the flat argument list. -/
def NodeValuesAvoid (b : InstallNodeServiceCtxBuilder) (tok : String) : Prop :=
  b.rpc_socket_addr ≠ tok ∧ b.data_dir_path ≠ tok ∧ b.log_dir_path ≠ tok
  ∧ b.node_ip ≠ some tok ∧ b.owner ≠ some tok ∧ b.rewards_address ≠ tok
  ∧ String.intercalate "," b.bootstrap_peers ≠ tok
  ∧ (match b.evm_network with
     | .Custom custom_network =>
         custom_network.rpc_url_http ≠ tok
         ∧ custom_network.payment_token_address ≠ tok
         ∧ custom_network.data_payments_address ≠ tok
     | _ => True)

/-- The free-string field values of an auditor configuration all differ
from the token `tok`. -/
def AuditorValuesAvoid (b : InstallAuditorServiceCtxBuilder) (tok : String) : Prop :=
  b.log_dir_path ≠ tok ∧ b.beta_encryption_key ≠ some tok
  ∧ String.intercalate "," b.bootstrap_peers ≠ tok

/-- The free-string field values of a faucet configuration all differ
from the token `tok`. -/
def FaucetValuesAvoid (b : InstallFaucetServiceCtxBuilder) (tok : String) : Prop :=
  b.log_dir_path ≠ tok ∧ String.intercalate "," b.bootstrap_peers ≠ tok

/-! ## Concrete configurations (from the unit tests in config.rs) -/

/-- A label parser accepting every name, for exercising the builders on
concrete inputs. -/
def acceptLabel : String → Option ServiceLabel := fun s => some ⟨s⟩

/-- The mandatory-only node configuration of
`build_should_assign_expected_values_when_mandatory_options_are_provided`
(config.rs lines 351-377). -/
def defaultNodeBuilder : InstallNodeServiceCtxBuilder where
  autostart := true
  bootstrap_peers := []
  data_dir_path := "/data"
  env_variables := none
  evm_network := .ArbitrumOne
  genesis := false
  home_network := false
  local_mode := false
  log_dir_path := "/logs"
  log_format := none
  name := "test-node"
  max_archived_log_files := none
  max_log_files := none
  metrics_port := none
  node_ip := none
  node_port := none
  owner := none
  rewards_address := "0x03B770D9cD32077cC0bF330c13C114a87643B124"
  rpc_socket_addr := "127.0.0.1:8080"
  safenode_path := "/bin/safenode"
  service_user := none
  upnp := false

/-- The custom EVM network of the unit tests (config.rs lines 385-395). -/
def customNetworkExample : CustomNetwork where
  rpc_url_http := "http://localhost:8545/"
  payment_token_address := "0x5FbDB2315678afecb367f032d93F642f64180aa3"
  data_payments_address := "0x8464135c8F25Da09e49BC8782676a84730C318bC"

/-- The node configuration of the custom-EVM-network unit test
(config.rs lines 379-415). -/
def customNodeBuilder : InstallNodeServiceCtxBuilder :=
  { defaultNodeBuilder with evm_network := .Custom customNetworkExample }

/-- A concrete auditor configuration with no bootstrap peers. -/
def auditorBuilderExample : InstallAuditorServiceCtxBuilder where
  auditor_path := "/bin/auditor"
  beta_encryption_key := none
  bootstrap_peers := []
  env_variables := none
  log_dir_path := "/logs"
  name := "auditor"
  service_user := "safe"

/-- A concrete faucet configuration with two bootstrap peers (spec
concrete scenario D). -/
def faucetBuilderTwoPeers : InstallFaucetServiceCtxBuilder where
  bootstrap_peers := ["/ip4/127.0.0.1/tcp/8080", "/ip4/192.168.1.1/tcp/8081"]
  env_variables := none
  faucet_path := "/bin/faucet"
  local_mode := false
  log_dir_path := "/logs"
  name := "faucet"
  service_user := "safe"

/-! ## Commutation helpers: imperative accumulation to ordered segments -/

theorem append_ite_seg (c : Bool) (a x : List String) :
    (if c then a ++ x else a) = a ++ (if c then x else []) := by
  cases c <;> simp

theorem ite_not_seg (c : Bool) (x : List String) :
    (if !c then x else []) = (if c then [] else x) := by
  cases c <;> rfl

theorem append_seg_log_format (o : Option LogFormat) (a : List String) :
    (match o with
      | some log_format => a ++ ["--log-format", log_format.asStr]
      | none => a)
    = a ++ o.elim [] (fun log_format => ["--log-format", log_format.asStr]) := by
  cases o <;> simp

theorem append_seg_node_ip (o : Option String) (a : List String) :
    (match o with
      | some node_ip => a ++ ["--ip", node_ip]
      | none => a)
    = a ++ o.elim [] (fun node_ip => ["--ip", node_ip]) := by
  cases o <;> simp

theorem append_seg_node_port (o : Option Nat) (a : List String) :
    (match o with
      | some node_port => a ++ ["--port", Nat.repr node_port]
      | none => a)
    = a ++ o.elim [] (fun node_port => ["--port", Nat.repr node_port]) := by
  cases o <;> simp

theorem append_seg_metrics_port (o : Option Nat) (a : List String) :
    (match o with
      | some metrics_port => a ++ ["--metrics-server-port", Nat.repr metrics_port]
      | none => a)
    = a ++ o.elim [] (fun metrics_port => ["--metrics-server-port", Nat.repr metrics_port]) := by
  cases o <;> simp

theorem append_seg_owner (o : Option String) (a : List String) :
    (match o with
      | some owner => a ++ ["--owner", owner]
      | none => a)
    = a ++ o.elim [] (fun owner => ["--owner", owner]) := by
  cases o <;> simp

theorem append_seg_max_archived (o : Option Nat) (a : List String) :
    (match o with
      | some log_files => a ++ ["--max-archived-log-files", Nat.repr log_files]
      | none => a)
    = a ++ o.elim [] (fun log_files => ["--max-archived-log-files", Nat.repr log_files]) := by
  cases o <;> simp

theorem append_seg_max_log (o : Option Nat) (a : List String) :
    (match o with
      | some log_files => a ++ ["--max-log-files", Nat.repr log_files]
      | none => a)
    = a ++ o.elim [] (fun log_files => ["--max-log-files", Nat.repr log_files]) := by
  cases o <;> simp

theorem append_seg_beta (o : Option String) (a : List String) :
    (match o with
      | some beta_encryption_key => a ++ ["--beta-encryption-key", beta_encryption_key]
      | none => a)
    = a ++ o.elim [] (fun beta_encryption_key => ["--beta-encryption-key", beta_encryption_key]) := by
  cases o <;> simp

theorem append_seg_evm (n : EvmNetwork) (a : List String) :
    (match n with
      | .Custom custom_network =>
          a ++ ["--rpc-url", custom_network.rpc_url_http,
            "--payment-token-address", custom_network.payment_token_address,
            "--data-payments-address", custom_network.data_payments_address]
      | _ => a)
    = a ++ evmExtraArgs n := by
  cases n <;> simp [evmExtraArgs]

/-- The node argument list, decomposed into the documented ordered
segments (helper shared by the claim theorems below). -/
theorem nodeArgsDecomp (b : InstallNodeServiceCtxBuilder) :
    b.args = ["--rpc", b.rpc_socket_addr, "--root-dir", b.data_dir_path,
        "--log-output-dest", b.log_dir_path]
      ++ (if b.genesis then ["--first"] else [])
      ++ (if b.home_network then ["--home-network"] else [])
      ++ (if b.local_mode then ["--local"] else [])
      ++ b.log_format.elim [] (fun log_format => ["--log-format", log_format.asStr])
      ++ (if b.upnp then ["--upnp"] else [])
      ++ b.node_ip.elim [] (fun node_ip => ["--ip", node_ip])
      ++ b.node_port.elim [] (fun node_port => ["--port", Nat.repr node_port])
      ++ b.metrics_port.elim [] (fun metrics_port => ["--metrics-server-port", Nat.repr metrics_port])
      ++ b.owner.elim [] (fun owner => ["--owner", owner])
      ++ b.max_archived_log_files.elim []
          (fun log_files => ["--max-archived-log-files", Nat.repr log_files])
      ++ b.max_log_files.elim [] (fun log_files => ["--max-log-files", Nat.repr log_files])
      ++ (if b.bootstrap_peers.isEmpty then []
          else ["--peer", String.intercalate "," b.bootstrap_peers])
      ++ ["--rewards-address", b.rewards_address]
      ++ [b.evm_network.toString]
      ++ evmExtraArgs b.evm_network := by
  simp only [InstallNodeServiceCtxBuilder.args, append_ite_seg, ite_not_seg,
    append_seg_log_format, append_seg_node_ip, append_seg_node_port, append_seg_metrics_port,
    append_seg_owner, append_seg_max_archived, append_seg_max_log, append_seg_evm]

/-- The auditor argument list, decomposed into ordered segments. -/
theorem auditorArgsDecomp (b : InstallAuditorServiceCtxBuilder) :
    b.args = ["--log-output-dest", b.log_dir_path]
      ++ (if b.bootstrap_peers.isEmpty then []
          else ["--peer", String.intercalate "," b.bootstrap_peers])
      ++ b.beta_encryption_key.elim []
          (fun beta_encryption_key => ["--beta-encryption-key", beta_encryption_key]) := by
  simp only [InstallAuditorServiceCtxBuilder.args, append_ite_seg, ite_not_seg, append_seg_beta]

/-- The faucet argument list, decomposed into ordered segments. -/
theorem faucetArgsDecomp (b : InstallFaucetServiceCtxBuilder) :
    b.args = ["--log-output-dest", b.log_dir_path]
      ++ (if b.bootstrap_peers.isEmpty then []
          else ["--peer", String.intercalate "," b.bootstrap_peers])
      ++ ["server"] := by
  simp only [InstallFaucetServiceCtxBuilder.args, append_ite_seg, ite_not_seg]

/-- C1: `InstallNodeServiceCtxBuilder.build` emits the argument sequence
in exactly the documented order: the mandatory preamble (rpc socket,
data dir, log dir), then each optional segment only if its field is set
— genesis/first, home-network, local, log-format, UPnP, node-ip,
node-port, metrics-port, owner, max-archived-log-files, max-log-files,
bootstrap-peers (omitted when empty, one comma-joined value otherwise) —
then always the rewards address, and finally the EVM network token with
the three extra flag/value pairs when the network is Custom. -/
theorem node_args_documented_order (b : InstallNodeServiceCtxBuilder) :
    b.args = ["--rpc", b.rpc_socket_addr, "--root-dir", b.data_dir_path,
        "--log-output-dest", b.log_dir_path]
      ++ (if b.genesis then ["--first"] else [])
      ++ (if b.home_network then ["--home-network"] else [])
      ++ (if b.local_mode then ["--local"] else [])
      ++ b.log_format.elim [] (fun log_format => ["--log-format", log_format.asStr])
      ++ (if b.upnp then ["--upnp"] else [])
      ++ b.node_ip.elim [] (fun node_ip => ["--ip", node_ip])
      ++ b.node_port.elim [] (fun node_port => ["--port", Nat.repr node_port])
      ++ b.metrics_port.elim [] (fun metrics_port => ["--metrics-server-port", Nat.repr metrics_port])
      ++ b.owner.elim [] (fun owner => ["--owner", owner])
      ++ b.max_archived_log_files.elim []
          (fun log_files => ["--max-archived-log-files", Nat.repr log_files])
      ++ b.max_log_files.elim [] (fun log_files => ["--max-log-files", Nat.repr log_files])
      ++ (if b.bootstrap_peers.isEmpty then []
          else ["--peer", String.intercalate "," b.bootstrap_peers])
      ++ ["--rewards-address", b.rewards_address]
      ++ [b.evm_network.toString]
      ++ evmExtraArgs b.evm_network :=
  nodeArgsDecomp b

/-- C7: the faucet builder emits the log destination first, then the
peer flag with a comma-joined value when the peer list is non-empty
(omitted when empty), and the literal token "server" last; in
particular, with two bootstrap peers the arguments are exactly
`--log-output-dest <dir> --peer <addr1>,<addr2> server`. -/
theorem faucet_args_shape_and_scenario :
    (∀ b : InstallFaucetServiceCtxBuilder,
      b.args = ["--log-output-dest", b.log_dir_path]
        ++ (if b.bootstrap_peers.isEmpty then []
            else ["--peer", String.intercalate "," b.bootstrap_peers])
        ++ ["server"])
    ∧ faucetBuilderTwoPeers.args
        = ["--log-output-dest", "/logs",
           "--peer", "/ip4/127.0.0.1/tcp/8080,/ip4/192.168.1.1/tcp/8081",
           "server"] :=
  ⟨faucetArgsDecomp, rfl⟩

/-- C8: for every label parser and every configuration of the node,
auditor, and faucet builders, build succeeds exactly when the configured
name parses as a service label; no other field can cause a failure, and
the builders re-validate nothing else. -/
theorem build_fails_iff_invalid_identity
    (parseLabel : String → Option ServiceLabel)
    (nb : InstallNodeServiceCtxBuilder) (ab : InstallAuditorServiceCtxBuilder)
    (fb : InstallFaucetServiceCtxBuilder) :
    ((nb.build parseLabel).isSome ↔ (parseLabel nb.name).isSome)
    ∧ ((ab.build parseLabel).isSome ↔ (parseLabel ab.name).isSome)
    ∧ ((fb.build parseLabel).isSome ↔ (parseLabel fb.name).isSome) := by
  refine ⟨?_, ?_, ?_⟩
  · cases h : parseLabel nb.name <;> simp [InstallNodeServiceCtxBuilder.build, h]
  · cases h : parseLabel ab.name <;> simp [InstallAuditorServiceCtxBuilder.build, h]
  · cases h : parseLabel fb.name <;> simp [InstallFaucetServiceCtxBuilder.build, h]

/-- C9: every successfully built auditor or faucet descriptor has its
autostart flag set and runs as the configured service user. -/
theorem auditor_faucet_autostart_and_user
    (parseLabel : String → Option ServiceLabel)
    (ab : InstallAuditorServiceCtxBuilder) (fb : InstallFaucetServiceCtxBuilder) :
    (∀ ctx, ab.build parseLabel = some ctx →
      ctx.autostart = true ∧ ctx.username = some ab.service_user)
    ∧ (∀ ctx, fb.build parseLabel = some ctx →
      ctx.autostart = true ∧ ctx.username = some fb.service_user) := by
  constructor
  · intro ctx h
    simp only [InstallAuditorServiceCtxBuilder.build] at h
    cases hp : parseLabel ab.name <;> rw [hp] at h
    · cases h
    · obtain rfl := Option.some.inj h
      exact ⟨rfl, rfl⟩
  · intro ctx h
    simp only [InstallFaucetServiceCtxBuilder.build] at h
    cases hp : parseLabel fb.name <;> rw [hp] at h
    · cases h
    · obtain rfl := Option.some.inj h
      exact ⟨rfl, rfl⟩

/-- Witness for C9: the concrete auditor and faucet configurations
produce descriptors that autostart and run as the user "safe". -/
theorem auditor_faucet_autostart_and_user_witness :
    (auditorBuilderExample.build acceptLabel).map ServiceInstallCtx.autostart = some true
    ∧ (auditorBuilderExample.build acceptLabel).map ServiceInstallCtx.username
        = some (some "safe")
    ∧ (faucetBuilderTwoPeers.build acceptLabel).map ServiceInstallCtx.autostart = some true
    ∧ (faucetBuilderTwoPeers.build acceptLabel).map ServiceInstallCtx.username
        = some (some "safe") := by
  obtain ⟨ha, hf⟩ :=
    auditor_faucet_autostart_and_user acceptLabel auditorBuilderExample faucetBuilderTwoPeers
  obtain ⟨ha1, ha2⟩ := ha _ rfl
  obtain ⟨hf1, hf2⟩ := hf _ rfl
  exact ⟨Option.map_eq_some'.mpr ⟨_, rfl, ha1⟩, Option.map_eq_some'.mpr ⟨_, rfl, ha2⟩,
    Option.map_eq_some'.mpr ⟨_, rfl, hf1⟩, Option.map_eq_some'.mpr ⟨_, rfl, hf2⟩⟩

/-- C4: the mandatory-only node configuration (rpc socket
127.0.0.1:8080, data dir /data, log dir /logs, the given rewards
address, named network ArbitrumOne) builds exactly the documented
argument list, for every label parser accepting its name. -/
theorem node_build_mandatory_only (parseLabel : String → Option ServiceLabel)
    (h : (parseLabel "test-node").isSome = true) :
    (defaultNodeBuilder.build parseLabel).map ServiceInstallCtx.args
      = some ["--rpc", "127.0.0.1:8080", "--root-dir", "/data",
          "--log-output-dest", "/logs",
          "--rewards-address", "0x03B770D9cD32077cC0bF330c13C114a87643B124",
          "evm-arbitrum-one"] := by
  obtain ⟨lab, hl⟩ := Option.isSome_iff_exists.mp h
  have hn : parseLabel defaultNodeBuilder.name = some lab := hl
  simp only [InstallNodeServiceCtxBuilder.build, hn]
  rfl

/-- Witness for C4 at a concrete label parser. -/
theorem node_build_mandatory_only_witness :
    (acceptLabel "test-node").isSome = true
    ∧ (defaultNodeBuilder.build acceptLabel).map ServiceInstallCtx.args
      = some ["--rpc", "127.0.0.1:8080", "--root-dir", "/data",
          "--log-output-dest", "/logs",
          "--rewards-address", "0x03B770D9cD32077cC0bF330c13C114a87643B124",
          "evm-arbitrum-one"] :=
  ⟨rfl, node_build_mandatory_only acceptLabel rfl⟩

/-! ## Digit facts about rendered numbers -/

theorem digitChar_isDigit : ∀ m : Nat, m < 10 → (Nat.digitChar m).isDigit = true := by decide

theorem toDigitsCore_all_digits (fuel : Nat) :
    ∀ (n : Nat) (ds : List Char), (∀ c ∈ ds, c.isDigit = true) →
      ∀ c ∈ Nat.toDigitsCore 10 fuel n ds, c.isDigit = true := by
  induction fuel with
  | zero =>
    intro n ds h c hc
    exact h c hc
  | succ fuel ih =>
    intro n ds h c hc
    simp only [Nat.toDigitsCore] at hc
    have hd : ∀ c ∈ Nat.digitChar (n % 10) :: ds, c.isDigit = true := by
      intro c hc
      rcases List.mem_cons.mp hc with rfl | hmem
      · exact digitChar_isDigit _ (Nat.mod_lt _ (by norm_num))
      · exact h c hmem
    by_cases h10 : n / 10 = 0
    · rw [if_pos h10] at hc
      exact hd c hc
    · rw [if_neg h10] at hc
      exact ih (n / 10) _ hd c hc

theorem nat_repr_all_digits (n : Nat) : ∀ c ∈ (Nat.repr n).data, c.isDigit = true := by
  intro c hc
  exact toDigitsCore_all_digits (n + 1) n [] (by simp) c hc

theorem nat_repr_beq_eq_false (n : Nat) (s : String) (c : Char)
    (hc : c ∈ s.data) (hnd : c.isDigit = false) : (Nat.repr n == s) = false := by
  refine beq_eq_false_iff_ne.mpr ?_
  intro h
  subst h
  have := nat_repr_all_digits n c hc
  rw [hnd] at this
  cases this

theorem repr_beq_peer_false (n : Nat) : (Nat.repr n == "--peer") = false :=
  nat_repr_beq_eq_false n _ '-' (by decide) (by decide)

theorem repr_beq_rpc_url_false (n : Nat) : (Nat.repr n == "--rpc-url") = false :=
  nat_repr_beq_eq_false n _ '-' (by decide) (by decide)

theorem repr_beq_payment_token_false (n : Nat) :
    (Nat.repr n == "--payment-token-address") = false :=
  nat_repr_beq_eq_false n _ '-' (by decide) (by decide)

theorem repr_beq_data_payments_false (n : Nat) :
    (Nat.repr n == "--data-payments-address") = false :=
  nat_repr_beq_eq_false n _ '-' (by decide) (by decide)

theorem logformat_beq_peer_false (f : LogFormat) : (f.asStr == "--peer") = false := by
  cases f <;> decide

theorem logformat_beq_rpc_url_false (f : LogFormat) : (f.asStr == "--rpc-url") = false := by
  cases f <;> decide

theorem logformat_beq_payment_token_false (f : LogFormat) :
    (f.asStr == "--payment-token-address") = false := by
  cases f <;> decide

theorem logformat_beq_data_payments_false (f : LogFormat) :
    (f.asStr == "--data-payments-address") = false := by
  cases f <;> decide

/-! ## Counting helpers -/

theorem count_ite_seg (c : Bool) (xs : List String) (tok : String) :
    List.count tok (if c then xs else []) = if c then List.count tok xs else 0 := by
  cases c <;> simp

theorem count_ite_seg' (c : Bool) (xs : List String) (tok : String) :
    List.count tok (if c then [] else xs) = if c then 0 else List.count tok xs := by
  cases c <;> simp

theorem count_option_elim {β : Type} (o : Option β) (f : β → List String) (tok : String) :
    List.count tok (o.elim [] f) = o.elim 0 (fun v => List.count tok (f v)) := by
  cases o <;> simp

theorem option_elim_const {β : Type} (o : Option β) (k : Nat) :
    o.elim k (fun _ => k) = k := by
  cases o <;> rfl

theorem infix_extend_left (s : List String) {l t : List String} (h : l <:+: t) :
    l <:+: s ++ t := by
  obtain ⟨u, v, hv⟩ := h
  exact ⟨s ++ u, v, by rw [← hv]; simp [List.append_assoc]⟩

theorem count_pair_elim_str (o : Option String) (flag tok : String)
    (hflag : (flag == tok) = false) (ho : o ≠ some tok) :
    o.elim 0 (fun v => List.count tok [flag, v]) = 0 := by
  cases o with
  | none => rfl
  | some v =>
    have hv : v ≠ tok := fun hv => ho (by rw [hv])
    simp [List.count_cons, hflag, hv]

theorem count_pair_elim_fn {β : Type} (o : Option β) (flag : String) (g : β → String)
    (tok : String) (hflag : (flag == tok) = false) (hg : ∀ v, (g v == tok) = false) :
    o.elim 0 (fun v => List.count tok [flag, g v]) = 0 := by
  cases o with
  | none => rfl
  | some v => simp [List.count_cons, hflag, beq_eq_false_iff_ne.mp (hg v)]

theorem count_singleton_str (x tok : String) (h : (x == tok) = false) :
    List.count tok [x] = 0 := by
  simp [List.count_singleton, h]

theorem evm_toString_beq_peer_false (n : EvmNetwork) : (n.toString == "--peer") = false := by
  cases n <;> rfl

theorem evm_toString_beq_rpc_url_false (n : EvmNetwork) :
    (n.toString == "--rpc-url") = false := by
  cases n <;> rfl

theorem evm_toString_beq_payment_token_false (n : EvmNetwork) :
    (n.toString == "--payment-token-address") = false := by
  cases n <;> rfl

theorem evm_toString_beq_data_payments_false (n : EvmNetwork) :
    (n.toString == "--data-payments-address") = false := by
  cases n <;> rfl

theorem count_evmExtra (n : EvmNetwork) (tok : String)
    (havoid : match n with
      | .Custom custom_network =>
          custom_network.rpc_url_http ≠ tok
          ∧ custom_network.payment_token_address ≠ tok
          ∧ custom_network.data_payments_address ≠ tok
      | _ => True) :
    List.count tok (evmExtraArgs n)
      = if n.isCustom then
          List.count tok ["--rpc-url", "--payment-token-address", "--data-payments-address"]
        else 0 := by
  cases n with
  | ArbitrumOne => simp [evmExtraArgs, EvmNetwork.isCustom]
  | ArbitrumSepolia => simp [evmExtraArgs, EvmNetwork.isCustom]
  | Custom custom_network =>
    obtain ⟨ha, hb, hc⟩ := havoid
    simp [evmExtraArgs, EvmNetwork.isCustom, List.count_cons,
      beq_eq_false_iff_ne.mpr ha, beq_eq_false_iff_ne.mpr hb, beq_eq_false_iff_ne.mpr hc]

/-- How many times the peer flag occurs in a node argument list. -/
theorem node_count_peer_eq (b : InstallNodeServiceCtxBuilder)
    (h : NodeValuesAvoid b "--peer") :
    List.count "--peer" b.args = if b.bootstrap_peers.isEmpty then 0 else 1 := by
  obtain ⟨h1, h2, h3, h4, h5, h6, h7, h8⟩ := h
  rw [nodeArgsDecomp]
  simp only [List.count_append, count_option_elim]
  rw [count_pair_elim_str b.node_ip "--ip" "--peer" (by decide) h4,
    count_pair_elim_str b.owner "--owner" "--peer" (by decide) h5,
    count_pair_elim_fn b.log_format "--log-format" LogFormat.asStr "--peer" (by decide)
      logformat_beq_peer_false,
    count_pair_elim_fn b.node_port "--port" Nat.repr "--peer" (by decide)
      repr_beq_peer_false,
    count_pair_elim_fn b.metrics_port "--metrics-server-port" Nat.repr "--peer" (by decide)
      repr_beq_peer_false,
    count_pair_elim_fn b.max_archived_log_files "--max-archived-log-files" Nat.repr "--peer"
      (by decide) repr_beq_peer_false,
    count_pair_elim_fn b.max_log_files "--max-log-files" Nat.repr "--peer" (by decide)
      repr_beq_peer_false,
    count_evmExtra b.evm_network "--peer" h8,
    count_singleton_str b.evm_network.toString "--peer"
      (evm_toString_beq_peer_false b.evm_network)]
  by_cases hp : b.bootstrap_peers = [] <;>
    simp [hp, count_ite_seg, count_ite_seg', List.count_cons, beq_iff_eq, h1, h2, h3, h6, h7]

/-- How many times the peer flag occurs in an auditor argument list. -/
theorem auditor_count_peer_eq (b : InstallAuditorServiceCtxBuilder)
    (h : AuditorValuesAvoid b "--peer") :
    List.count "--peer" b.args = if b.bootstrap_peers.isEmpty then 0 else 1 := by
  obtain ⟨h1, h2, h3⟩ := h
  rw [auditorArgsDecomp]
  simp only [List.count_append, count_option_elim]
  rw [count_pair_elim_str b.beta_encryption_key "--beta-encryption-key" "--peer"
    (by decide) h2]
  by_cases hp : b.bootstrap_peers = [] <;>
    simp [hp, List.count_cons, beq_iff_eq, h1, h3]

/-- How many times the peer flag occurs in a faucet argument list. -/
theorem faucet_count_peer_eq (b : InstallFaucetServiceCtxBuilder)
    (h : FaucetValuesAvoid b "--peer") :
    List.count "--peer" b.args = if b.bootstrap_peers.isEmpty then 0 else 1 := by
  obtain ⟨h1, h2⟩ := h
  rw [faucetArgsDecomp]
  simp only [List.count_append]
  by_cases hp : b.bootstrap_peers = [] <;>
    simp [hp, List.count_cons, beq_iff_eq, h1, h2]

/-- C5: for every configuration of the node, auditor, and faucet
builders (whose opaque string field values do not collide with the
literal peer-flag token), an empty bootstrap-peer list produces no peer
flag anywhere in the argument list, and a non-empty list produces
exactly one peer flag, immediately followed by the single comma-joined
value of the peers in input order. -/
theorem builders_peer_flag_rule
    (nb : InstallNodeServiceCtxBuilder) (ab : InstallAuditorServiceCtxBuilder)
    (fb : InstallFaucetServiceCtxBuilder)
    (hn : NodeValuesAvoid nb "--peer") (ha : AuditorValuesAvoid ab "--peer")
    (hf : FaucetValuesAvoid fb "--peer") :
    ((nb.bootstrap_peers = [] → List.count "--peer" nb.args = 0)
      ∧ (nb.bootstrap_peers ≠ [] → List.count "--peer" nb.args = 1
          ∧ ["--peer", String.intercalate "," nb.bootstrap_peers] <:+: nb.args))
    ∧ ((ab.bootstrap_peers = [] → List.count "--peer" ab.args = 0)
      ∧ (ab.bootstrap_peers ≠ [] → List.count "--peer" ab.args = 1
          ∧ ["--peer", String.intercalate "," ab.bootstrap_peers] <:+: ab.args))
    ∧ ((fb.bootstrap_peers = [] → List.count "--peer" fb.args = 0)
      ∧ (fb.bootstrap_peers ≠ [] → List.count "--peer" fb.args = 1
          ∧ ["--peer", String.intercalate "," fb.bootstrap_peers] <:+: fb.args)) := by
  refine ⟨⟨?_, ?_⟩, ⟨?_, ?_⟩, ⟨?_, ?_⟩⟩
  · intro hp
    rw [node_count_peer_eq nb hn]
    simp [hp]
  · intro hp
    have hE : nb.bootstrap_peers.isEmpty = false := by simp [hp]
    refine ⟨by rw [node_count_peer_eq nb hn]; simp [hE], ?_⟩
    rw [nodeArgsDecomp]
    simp only [hE, Bool.false_eq_true, if_false, List.append_assoc]
    repeat
      first
      | exact ⟨[], _, rfl⟩
      | apply infix_extend_left
  · intro hp
    rw [auditor_count_peer_eq ab ha]
    simp [hp]
  · intro hp
    have hE : ab.bootstrap_peers.isEmpty = false := by simp [hp]
    refine ⟨by rw [auditor_count_peer_eq ab ha]; simp [hE], ?_⟩
    rw [auditorArgsDecomp]
    simp only [hE, Bool.false_eq_true, if_false, List.append_assoc]
    repeat
      first
      | exact ⟨[], _, rfl⟩
      | apply infix_extend_left
  · intro hp
    rw [faucet_count_peer_eq fb hf]
    simp [hp]
  · intro hp
    have hE : fb.bootstrap_peers.isEmpty = false := by simp [hp]
    refine ⟨by rw [faucet_count_peer_eq fb hf]; simp [hE], ?_⟩
    rw [faucetArgsDecomp]
    simp only [hE, Bool.false_eq_true, if_false, List.append_assoc]
    repeat
      first
      | exact ⟨[], _, rfl⟩
      | apply infix_extend_left

/-- Witness for C5: the concrete configurations — node and auditor with
no peers, faucet with two peers. -/
theorem builders_peer_flag_rule_witness :
    List.count "--peer" defaultNodeBuilder.args = 0
    ∧ List.count "--peer" auditorBuilderExample.args = 0
    ∧ List.count "--peer" faucetBuilderTwoPeers.args = 1 := by
  obtain ⟨⟨hn, _⟩, ⟨ha, _⟩, ⟨_, hf⟩⟩ :=
    builders_peer_flag_rule defaultNodeBuilder auditorBuilderExample faucetBuilderTwoPeers
      (by refine ⟨by decide, by decide, by decide, by decide, by decide, by decide,
        by decide, ?_⟩; simp [defaultNodeBuilder])
      ⟨by decide, by decide, by decide⟩
      ⟨by decide, by decide⟩
  exact ⟨hn rfl, ha rfl, (hf (by decide)).1⟩

theorem suffix_extend_left (s : List String) {l t : List String} (h : l <:+ t) :
    l <:+ s ++ t := by
  obtain ⟨u, hu⟩ := h
  exact ⟨s ++ u, by rw [← hu, List.append_assoc]⟩

/-- How many times the custom rpc-url flag occurs in a node argument list. -/
theorem node_count_rpc_url_eq (b : InstallNodeServiceCtxBuilder)
    (h : NodeValuesAvoid b "--rpc-url") :
    List.count "--rpc-url" b.args = if b.evm_network.isCustom then 1 else 0 := by
  obtain ⟨h1, h2, h3, h4, h5, h6, h7, h8⟩ := h
  rw [nodeArgsDecomp]
  simp only [List.count_append, count_option_elim]
  rw [count_pair_elim_str b.node_ip "--ip" "--rpc-url" (by decide) h4,
    count_pair_elim_str b.owner "--owner" "--rpc-url" (by decide) h5,
    count_pair_elim_fn b.log_format "--log-format" LogFormat.asStr "--rpc-url" (by decide)
      logformat_beq_rpc_url_false,
    count_pair_elim_fn b.node_port "--port" Nat.repr "--rpc-url" (by decide)
      repr_beq_rpc_url_false,
    count_pair_elim_fn b.metrics_port "--metrics-server-port" Nat.repr "--rpc-url"
      (by decide) repr_beq_rpc_url_false,
    count_pair_elim_fn b.max_archived_log_files "--max-archived-log-files" Nat.repr
      "--rpc-url" (by decide) repr_beq_rpc_url_false,
    count_pair_elim_fn b.max_log_files "--max-log-files" Nat.repr "--rpc-url" (by decide)
      repr_beq_rpc_url_false,
    count_evmExtra b.evm_network "--rpc-url" h8,
    count_singleton_str b.evm_network.toString "--rpc-url"
      (evm_toString_beq_rpc_url_false b.evm_network)]
  by_cases hp : b.bootstrap_peers = [] <;>
    simp [hp, count_ite_seg, count_ite_seg', List.count_cons, beq_iff_eq, h1, h2, h3, h6, h7]

/-- How many times the custom payment-token flag occurs in a node
argument list. -/
theorem node_count_payment_token_eq (b : InstallNodeServiceCtxBuilder)
    (h : NodeValuesAvoid b "--payment-token-address") :
    List.count "--payment-token-address" b.args
      = if b.evm_network.isCustom then 1 else 0 := by
  obtain ⟨h1, h2, h3, h4, h5, h6, h7, h8⟩ := h
  rw [nodeArgsDecomp]
  simp only [List.count_append, count_option_elim]
  rw [count_pair_elim_str b.node_ip "--ip" "--payment-token-address" (by decide) h4,
    count_pair_elim_str b.owner "--owner" "--payment-token-address" (by decide) h5,
    count_pair_elim_fn b.log_format "--log-format" LogFormat.asStr "--payment-token-address"
      (by decide) logformat_beq_payment_token_false,
    count_pair_elim_fn b.node_port "--port" Nat.repr "--payment-token-address" (by decide)
      repr_beq_payment_token_false,
    count_pair_elim_fn b.metrics_port "--metrics-server-port" Nat.repr
      "--payment-token-address" (by decide) repr_beq_payment_token_false,
    count_pair_elim_fn b.max_archived_log_files "--max-archived-log-files" Nat.repr
      "--payment-token-address" (by decide) repr_beq_payment_token_false,
    count_pair_elim_fn b.max_log_files "--max-log-files" Nat.repr "--payment-token-address"
      (by decide) repr_beq_payment_token_false,
    count_evmExtra b.evm_network "--payment-token-address" h8,
    count_singleton_str b.evm_network.toString "--payment-token-address"
      (evm_toString_beq_payment_token_false b.evm_network)]
  by_cases hp : b.bootstrap_peers = [] <;>
    simp [hp, count_ite_seg, count_ite_seg', List.count_cons, beq_iff_eq, h1, h2, h3, h6, h7]

/-- How many times the custom data-payments flag occurs in a node
argument list. -/
theorem node_count_data_payments_eq (b : InstallNodeServiceCtxBuilder)
    (h : NodeValuesAvoid b "--data-payments-address") :
    List.count "--data-payments-address" b.args
      = if b.evm_network.isCustom then 1 else 0 := by
  obtain ⟨h1, h2, h3, h4, h5, h6, h7, h8⟩ := h
  rw [nodeArgsDecomp]
  simp only [List.count_append, count_option_elim]
  rw [count_pair_elim_str b.node_ip "--ip" "--data-payments-address" (by decide) h4,
    count_pair_elim_str b.owner "--owner" "--data-payments-address" (by decide) h5,
    count_pair_elim_fn b.log_format "--log-format" LogFormat.asStr "--data-payments-address"
      (by decide) logformat_beq_data_payments_false,
    count_pair_elim_fn b.node_port "--port" Nat.repr "--data-payments-address" (by decide)
      repr_beq_data_payments_false,
    count_pair_elim_fn b.metrics_port "--metrics-server-port" Nat.repr
      "--data-payments-address" (by decide) repr_beq_data_payments_false,
    count_pair_elim_fn b.max_archived_log_files "--max-archived-log-files" Nat.repr
      "--data-payments-address" (by decide) repr_beq_data_payments_false,
    count_pair_elim_fn b.max_log_files "--max-log-files" Nat.repr "--data-payments-address"
      (by decide) repr_beq_data_payments_false,
    count_evmExtra b.evm_network "--data-payments-address" h8,
    count_singleton_str b.evm_network.toString "--data-payments-address"
      (evm_toString_beq_data_payments_false b.evm_network)]
  by_cases hp : b.bootstrap_peers = [] <;>
    simp [hp, count_ite_seg, count_ite_seg', List.count_cons, beq_iff_eq, h1, h2, h3, h6, h7]

/-- C3: for every node configuration (whose opaque string field values
do not collide with the three custom-network flag tokens), a named EVM
network selection emits exactly one trailing network token and none of
the rpc-url, payment-token-address, data-payments-address flags; a
Custom selection emits the custom token followed by exactly the three
flag/value pairs in that fixed order, never a strict subset. -/
theorem node_args_evm_branching (b : InstallNodeServiceCtxBuilder)
    (h1 : NodeValuesAvoid b "--rpc-url")
    (h2 : NodeValuesAvoid b "--payment-token-address")
    (h3 : NodeValuesAvoid b "--data-payments-address") :
    ((∀ custom_network, b.evm_network ≠ .Custom custom_network) →
      b.args.getLast? = some b.evm_network.toString
      ∧ List.count "--rpc-url" b.args = 0
      ∧ List.count "--payment-token-address" b.args = 0
      ∧ List.count "--data-payments-address" b.args = 0)
    ∧ (∀ custom_network, b.evm_network = .Custom custom_network →
      [b.evm_network.toString, "--rpc-url", custom_network.rpc_url_http,
        "--payment-token-address", custom_network.payment_token_address,
        "--data-payments-address", custom_network.data_payments_address] <:+ b.args
      ∧ List.count "--rpc-url" b.args = 1
      ∧ List.count "--payment-token-address" b.args = 1
      ∧ List.count "--data-payments-address" b.args = 1) := by
  constructor
  · intro hnamed
    have hC : b.evm_network.isCustom = false := by
      cases hev : b.evm_network with
      | ArbitrumOne => rfl
      | ArbitrumSepolia => rfl
      | Custom custom_network => exact absurd hev (hnamed custom_network)
    have hx : evmExtraArgs b.evm_network = [] := by
      cases hev : b.evm_network with
      | ArbitrumOne => rfl
      | ArbitrumSepolia => rfl
      | Custom custom_network => exact absurd hev (hnamed custom_network)
    refine ⟨?_, ?_, ?_, ?_⟩
    · rw [nodeArgsDecomp, hx, List.append_nil]
      exact List.getLast?_concat _
    · rw [node_count_rpc_url_eq b h1, hC]
      rfl
    · rw [node_count_payment_token_eq b h2, hC]
      rfl
    · rw [node_count_data_payments_eq b h3, hC]
      rfl
  · intro custom_network hev
    have hC : b.evm_network.isCustom = true := by rw [hev]; rfl
    refine ⟨?_, ?_, ?_, ?_⟩
    · rw [nodeArgsDecomp, hev]
      simp only [EvmNetwork.toString, evmExtraArgs, List.append_assoc]
      repeat
        first
        | exact ⟨[], rfl⟩
        | apply suffix_extend_left
    · rw [node_count_rpc_url_eq b h1, hC]
      rfl
    · rw [node_count_payment_token_eq b h2, hC]
      rfl
    · rw [node_count_data_payments_eq b h3, hC]
      rfl

/-- Witness for C3: the concrete named-network and custom-network node
configurations of the unit tests. -/
theorem node_args_evm_branching_witness :
    defaultNodeBuilder.args.getLast? = some "evm-arbitrum-one"
    ∧ List.count "--rpc-url" defaultNodeBuilder.args = 0
    ∧ List.count "--rpc-url" customNodeBuilder.args = 1
    ∧ List.count "--payment-token-address" customNodeBuilder.args = 1
    ∧ List.count "--data-payments-address" customNodeBuilder.args = 1 := by
  obtain ⟨hnamed, _⟩ := node_args_evm_branching defaultNodeBuilder
    ⟨by decide, by decide, by decide, by decide, by decide, by decide, by decide,
      by simp [defaultNodeBuilder]⟩
    ⟨by decide, by decide, by decide, by decide, by decide, by decide, by decide,
      by simp [defaultNodeBuilder]⟩
    ⟨by decide, by decide, by decide, by decide, by decide, by decide, by decide,
      by simp [defaultNodeBuilder]⟩
  obtain ⟨hl, hc0, _, _⟩ := hnamed (fun custom_network h => nomatch h)
  obtain ⟨_, hcustom⟩ := node_args_evm_branching customNodeBuilder
    ⟨by decide, by decide, by decide, by decide, by decide, by decide, by decide,
      ⟨by decide, by decide, by decide⟩⟩
    ⟨by decide, by decide, by decide, by decide, by decide, by decide, by decide,
      ⟨by decide, by decide, by decide⟩⟩
    ⟨by decide, by decide, by decide, by decide, by decide, by decide, by decide,
      ⟨by decide, by decide, by decide⟩⟩
  obtain ⟨_, hc1, hc2, hc3⟩ := hcustom customNetworkExample rfl
  exact ⟨hl, hc0, hc1, hc2, hc3⟩

theorem single_msg_eq (c : Nat) :
    "The count (" ++ Nat.repr c ++ ") does not match the number of ports (1)"
      = cardinalityMismatchMsg c 1 := by
  unfold cardinalityMismatchMsg
  rw [String.append_assoc ("The count (" ++ Nat.repr c)
        ") does not match the number of ports (" (Nat.repr 1),
      String.append_assoc ("The count (" ++ Nat.repr c)
        (") does not match the number of ports (" ++ Nat.repr 1) ")"]
  rfl

theorem validate_range_ok_iff (s e c : Nat) :
    (PortRange.Range s e).validate c = .ok ()
      ↔ c = ((65536 + e - s) % 65536 + 1) % 65536 := by
  simp only [PortRange.validate]
  split
  · rename_i hne
    constructor
    · intro hco
      exact Except.noConfusion hco
    · intro hco
      exact absurd hco hne
  · rename_i hne
    simp only [ne_eq, not_not] at hne
    exact iff_of_true rfl hne

/-- C2 counterexample: `Range(0,65535)` has start strictly below stop
(so it satisfies the claim's hypotheses on the range and the count), yet
`validate` accepts the u16 count 0, which is not the mathematical
cardinality 65536 of the range. -/
theorem validate_cardinality_claim_cex :
    (PortRange.Range 0 65535).WellFormed
    ∧ (0 : Nat) < 65536
    ∧ (PortRange.Range 0 65535).validate 0 = .ok ()
    ∧ (0 : Nat) ≠ (PortRange.Range 0 65535).cardinality := by
  refine ⟨⟨by norm_num, le_refl _⟩, by norm_num, rfl, ?_⟩
  show (0 : Nat) ≠ 65535 - 0 + 1
  norm_num

/-- C2 (amended): for every well-formed PortRange whose cardinality is
u16-representable (this excludes only `Range(0,65535)`, where the u16
computation of `end - start + 1` wraps to 0 — see the wrapping theorem)
and every u16 count, validate succeeds exactly when the count equals the
cardinality (1 for Single, stop − start + 1 for Range), and otherwise
fails with the error carrying the declared count and the required
count. -/
theorem validate_iff_cardinality_amended (r : PortRange) (c : Nat)
    (hc : c < 65536) (hwf : r.WellFormed) (hcard : r.cardinality ≤ 65535) :
    (r.validate c = .ok () ↔ c = r.cardinality)
    ∧ (c ≠ r.cardinality →
        r.validate c = .error (cardinalityMismatchMsg c r.cardinality)) := by
  cases r with
  | Single port =>
    have hcar : (PortRange.Single port).cardinality = 1 := rfl
    rw [hcar]
    constructor
    · by_cases h1 : c = 1
      · subst h1
        exact iff_of_true rfl rfl
      · refine iff_of_false ?_ h1
        intro hco
        simp only [PortRange.validate, if_pos h1] at hco
        exact Except.noConfusion hco
    · intro hne
      simp only [PortRange.validate]
      rw [if_pos hne]
      exact congrArg Except.error (single_msg_eq c)
  | Range s e =>
    obtain ⟨hse, he⟩ := hwf
    have hcar : (PortRange.Range s e).cardinality = e - s + 1 := rfl
    rw [hcar] at hcard ⊢
    have hpc : ((65536 + e - s) % 65536 + 1) % 65536 = e - s + 1 := by omega
    constructor
    · rw [validate_range_ok_iff, hpc]
    · intro hne
      simp only [PortRange.validate]
      rw [hpc, if_pos hne]
      rfl

/-- Witness for C2 (amended), at the spec's concrete scenario C:
`Range(8081,8083)` validated against 3 succeeds, and against 2 fails
with required=3, declared=2. -/
theorem validate_iff_cardinality_amended_witness :
    (PortRange.Range 8081 8083).validate 3 = .ok ()
    ∧ (PortRange.Range 8081 8083).validate 2
        = .error "The count (2) does not match the number of ports (3)" := by
  have h3 := validate_iff_cardinality_amended (PortRange.Range 8081 8083) 3
    (by norm_num) (by show 8081 < 8083 ∧ 8083 ≤ 65535; omega)
    (by show 8083 - 8081 + 1 ≤ 65535; omega)
  have h2 := validate_iff_cardinality_amended (PortRange.Range 8081 8083) 2
    (by norm_num) (by show 8081 < 8083 ∧ 8083 ≤ 65535; omega)
    (by show 8083 - 8081 + 1 ≤ 65535; omega)
  refine ⟨h3.1.mpr (by show (3 : Nat) = 8083 - 8081 + 1; norm_num), ?_⟩
  have he := h2.2 (by show (2 : Nat) ≠ 8083 - 8081 + 1; norm_num)
  exact he.trans rfl

/-- C10: `PortRange::validate` computes a Range's port count as
`end − start + 1` in 16-bit unsigned arithmetic, so for every range the
accepted count is `(stop − start + 1) % 65536`; at `Range(0,65535)` this
wraps to 0. -/
theorem validate_uses_wrapping_u16_cardinality (s e c : Nat)
    (hse : s ≤ e) (he : e ≤ 65535) (hc : c < 65536) :
    (PortRange.Range s e).validate c = .ok () ↔ c = (e - s + 1) % 65536 := by
  rw [validate_range_ok_iff]
  have h1 : (65536 + e - s) % 65536 = e - s := by omega
  rw [h1]

/-- Witness for C10: at `Range(0,65535)` the wrapped count is 0, so
validating 0 succeeds and validating 1 fails. -/
theorem validate_uses_wrapping_u16_cardinality_witness :
    (PortRange.Range 0 65535).validate 0 = .ok ()
    ∧ (PortRange.Range 0 65535).validate 1 ≠ .ok () := by
  have h0 := validate_uses_wrapping_u16_cardinality 0 65535 0
    (by omega) (by omega) (by omega)
  have h1 := validate_uses_wrapping_u16_cardinality 0 65535 1
    (by omega) (by omega) (by omega)
  refine ⟨h0.mpr (by omega), ?_⟩
  intro hco
  have := h1.mp hco
  omega

/-! ## Characterisation of `PortRange::parse` -/

theorem u16core_ok_iff (dl : List Char) (p : Nat) :
    ((if dl.isEmpty then Except.error "invalid digit found in string"
      else if dl.all (fun d => d.isDigit) then
        (if dl.foldl (fun acc d => acc * 10 + (d.toNat - 48)) 0 ≤ 65535 then
          Except.ok (dl.foldl (fun acc d => acc * 10 + (d.toNat - 48)) 0)
        else Except.error "number too large to fit in target type")
      else Except.error "invalid digit found in string") = Except.ok p)
    ↔ (dl ≠ [] ∧ (∀ c ∈ dl, c.isDigit = true) ∧ digitsVal dl = p ∧ p ≤ 65535) := by
  by_cases h1 : dl.isEmpty
  · rw [if_pos h1]
    have hnil : dl = [] := List.isEmpty_iff.mp h1
    subst hnil
    constructor
    · intro h
      exact Except.noConfusion h
    · rintro ⟨hne, -, -, -⟩
      exact absurd rfl hne
  · rw [if_neg h1]
    have hne : dl ≠ [] := by
      intro h
      subst h
      exact h1 rfl
    by_cases h2 : dl.all (fun d => d.isDigit) = true
    · rw [if_pos h2]
      have hdig : ∀ c ∈ dl, c.isDigit = true := List.all_eq_true.mp h2
      by_cases h3 : dl.foldl (fun acc d => acc * 10 + (d.toNat - 48)) 0 ≤ 65535
      · rw [if_pos h3]
        constructor
        · intro h
          have hv := Except.ok.inj h
          exact ⟨hne, hdig, hv, hv ▸ h3⟩
        · rintro ⟨-, -, hval, -⟩
          rw [show digitsVal dl = dl.foldl (fun acc d => acc * 10 + (d.toNat - 48)) 0
            from rfl] at hval
          rw [hval]
      · rw [if_neg h3]
        constructor
        · intro h
          exact Except.noConfusion h
        · rintro ⟨-, -, hval, hle⟩
          rw [show digitsVal dl = dl.foldl (fun acc d => acc * 10 + (d.toNat - 48)) 0
            from rfl] at hval
          rw [hval] at h3
          exact absurd hle h3
    · rw [if_neg h2]
      constructor
      · intro h
        exact Except.noConfusion h
      · rintro ⟨-, hdig, -, -⟩
        exact absurd (List.all_eq_true.mpr hdig) h2

theorem u16FromChars_ok_iff (cs : List Char) (p : Nat) :
    u16FromChars cs = .ok p ↔ SpecBareU16 cs p := by
  cases cs with
  | nil =>
    constructor
    · intro h
      exact Except.noConfusion h
    · rintro ⟨t, ht, hne, -, -, -⟩
      rcases ht with ht | ht
      · exact List.noConfusion ht
      · exact absurd ht.symm hne
  | cons c rest =>
    by_cases hplus : c = '+'
    · subst hplus
      have hred : u16FromChars ('+' :: rest)
          = (if rest.isEmpty then Except.error "invalid digit found in string"
            else if rest.all (fun d => d.isDigit) then
              (if rest.foldl (fun acc d => acc * 10 + (d.toNat - 48)) 0 ≤ 65535 then
                Except.ok (rest.foldl (fun acc d => acc * 10 + (d.toNat - 48)) 0)
              else Except.error "number too large to fit in target type")
            else Except.error "invalid digit found in string") := by
        simp [u16FromChars]
      rw [hred, u16core_ok_iff]
      constructor
      · rintro ⟨hne, hdig, hval, hle⟩
        exact ⟨rest, Or.inl rfl, hne, hdig, hval, hle⟩
      · rintro ⟨t, ht, hne, hdig, hval, hle⟩
        rcases ht with ht | ht
        · obtain rfl : rest = t := (List.cons.inj ht).2
          exact ⟨hne, hdig, hval, hle⟩
        · rw [← ht] at hdig
          have := hdig '+' (List.mem_cons_self _ _)
          exact absurd this (by decide)
    · have hred : u16FromChars (c :: rest)
          = (if (c :: rest).isEmpty then Except.error "invalid digit found in string"
            else if (c :: rest).all (fun d => d.isDigit) then
              (if (c :: rest).foldl (fun acc d => acc * 10 + (d.toNat - 48)) 0 ≤ 65535 then
                Except.ok ((c :: rest).foldl (fun acc d => acc * 10 + (d.toNat - 48)) 0)
              else Except.error "number too large to fit in target type")
            else Except.error "invalid digit found in string") := by
        simp [u16FromChars, hplus]
      rw [hred, u16core_ok_iff]
      constructor
      · rintro ⟨hne, hdig, hval, hle⟩
        exact ⟨c :: rest, Or.inr rfl, hne, hdig, hval, hle⟩
      · rintro ⟨t, ht, hne, hdig, hval, hle⟩
        rcases ht with ht | ht
        · exact absurd (List.cons.inj ht).1 hplus
        · rw [← ht] at hdig hval
          exact ⟨List.cons_ne_nil c rest, hdig, hval, hle⟩

theorem specBare_no_dash (cs : List Char) (p : Nat) (h : SpecBareU16 cs p) :
    '-' ∉ cs := by
  obtain ⟨t, ht, hne, hdig, -, -⟩ := h
  intro hmem
  rcases ht with rfl | rfl
  · rcases List.mem_cons.mp hmem with h' | h'
    · exact absurd h' (by decide)
    · exact absurd (hdig '-' h') (by decide)
  · exact absurd (hdig '-' hmem) (by decide)

theorem splitDash_ne_nil (l : List Char) : splitDash l ≠ [] := by
  cases l with
  | nil => simp [splitDash]
  | cons c rest =>
    simp only [splitDash]
    by_cases h : c = '-'
    · rw [if_pos h]
      simp
    · rw [if_neg h]
      cases hs : splitDash rest <;> simp

theorem splitDash_eq_single (l : List Char) : ∀ y : List Char,
    splitDash l = [y] ↔ l = y ∧ '-' ∉ y := by
  induction l with
  | nil =>
    intro y
    simp only [splitDash]
    constructor
    · intro h
      obtain rfl : y = [] := (List.cons.inj h).1.symm
      exact ⟨rfl, by simp⟩
    · rintro ⟨rfl, -⟩
      rfl
  | cons c rest ih =>
    intro y
    simp only [splitDash]
    by_cases h : c = '-'
    · subst h
      rw [if_pos rfl]
      constructor
      · intro hh
        obtain ⟨-, habs⟩ := List.cons.inj hh
        exact absurd habs (splitDash_ne_nil rest)
      · rintro ⟨rfl, hnd⟩
        exact absurd (List.mem_cons_self _ _) hnd
    · rw [if_neg h]
      cases hs : splitDash rest with
      | nil => exact absurd hs (splitDash_ne_nil rest)
      | cons hh tt =>
        constructor
        · intro he
          obtain ⟨rfl, htt⟩ := List.cons.inj he
          obtain rfl : tt = [] := htt
          obtain ⟨rfl, hnd⟩ := (ih hh).mp hs
          exact ⟨rfl, by
            intro hmem
            rcases List.mem_cons.mp hmem with h' | h'
            · exact h h'.symm
            · exact hnd h'⟩
        · rintro ⟨rfl, hnd⟩
          have hnd' : '-' ∉ rest := fun hm => hnd (List.mem_cons_of_mem _ hm)
          have := (ih rest).mpr ⟨rfl, hnd'⟩
          rw [hs] at this
          obtain ⟨rfl, rfl⟩ := List.cons.inj this
          rfl

theorem splitDash_eq_pair (l : List Char) : ∀ x y : List Char,
    splitDash l = [x, y] ↔ l = x ++ '-' :: y ∧ '-' ∉ x ∧ '-' ∉ y := by
  induction l with
  | nil =>
    intro x y
    simp only [splitDash]
    constructor
    · intro h
      exact absurd (List.cons.inj h).2 (by simp)
    · rintro ⟨habs, -, -⟩
      exact absurd habs (by simp)
  | cons c rest ih =>
    intro x y
    simp only [splitDash]
    by_cases h : c = '-'
    · subst h
      rw [if_pos rfl]
      constructor
      · intro hh
        obtain ⟨hx, hrest⟩ := List.cons.inj hh
        obtain rfl : x = [] := hx.symm
        obtain ⟨rfl, hnd⟩ := (splitDash_eq_single rest y).mp hrest
        exact ⟨rfl, by simp, hnd⟩
      · rintro ⟨hl, hnx, hny⟩
        cases x with
        | nil =>
          obtain ⟨-, rfl⟩ := List.cons.inj hl
          rw [(splitDash_eq_single rest rest).mpr ⟨rfl, hny⟩]
        | cons cx xs =>
          obtain ⟨rfl, -⟩ := List.cons.inj hl
          exact absurd (List.mem_cons_self _ _) hnx
    · rw [if_neg h]
      cases hs : splitDash rest with
      | nil => exact absurd hs (splitDash_ne_nil rest)
      | cons hh tt =>
        constructor
        · intro he
          obtain ⟨rfl, htt⟩ := List.cons.inj he
          have hrest : splitDash rest = [hh, y] := by
            rw [hs, htt]
          obtain ⟨rfl, hnh, hny⟩ := (ih hh y).mp hrest
          refine ⟨rfl, ?_, hny⟩
          intro hmem
          rcases List.mem_cons.mp hmem with h' | h'
          · exact h h'.symm
          · exact hnh h'
        · rintro ⟨hl, hnx, hny⟩
          cases x with
          | nil =>
            obtain ⟨hc, -⟩ := List.cons.inj hl
            exact absurd hc h
          | cons cx xs =>
            obtain ⟨rfl, hrest⟩ := List.cons.inj hl
            have hnxs : '-' ∉ xs := fun hm => hnx (List.mem_cons_of_mem _ hm)
            have := (ih xs y).mpr ⟨hrest, hnxs, hny⟩
            rw [hs] at this
            obtain ⟨rfl, rfl⟩ := List.cons.inj this
            rfl

theorem specRangeShape_iff_split (cs : List Char) (a b : Nat) :
    SpecRangeShape cs a b
      ↔ ∃ x y, splitDash cs = [x, y] ∧ SpecBareU16 x a ∧ SpecBareU16 y b := by
  constructor
  · rintro ⟨x, y, rfl, hx, hy⟩
    exact ⟨x, y, (splitDash_eq_pair _ x y).mpr
      ⟨rfl, specBare_no_dash _ _ hx, specBare_no_dash _ _ hy⟩, hx, hy⟩
  · rintro ⟨x, y, hs, hx, hy⟩
    obtain ⟨rfl, -, -⟩ := (splitDash_eq_pair cs x y).mp hs
    exact ⟨x, y, rfl, hx, hy⟩

theorem parse_error_wrap (s : String)
    (hnb : ∀ p, ¬ SpecBareU16 s.data p)
    (hnr : ∀ a b, ¬ SpecRangeShape s.data a b)
    (e0 : String) (hpe : PortRange.parse s = .error e0) :
    (∀ p, PortRange.parse s = .ok (.Single p) ↔ SpecBareU16 s.data p)
    ∧ (∀ a b, PortRange.parse s = .ok (.Range a b) ↔ SpecRangeShape s.data a b ∧ a < b)
    ∧ ((∃ e, PortRange.parse s = .error e) ↔
        ¬ ((∃ p, SpecBareU16 s.data p) ∨ ∃ a b, SpecRangeShape s.data a b ∧ a < b)) := by
  refine ⟨?_, ?_, ?_⟩
  · intro p
    rw [hpe]
    exact iff_of_false (fun h => Except.noConfusion h) (hnb p)
  · intro a b
    rw [hpe]
    exact iff_of_false (fun h => Except.noConfusion h) (fun hh => hnr a b hh.1)
  · rw [hpe]
    refine iff_of_true ⟨e0, rfl⟩ ?_
    rintro (⟨p, hp⟩ | ⟨a, b, hsh, -⟩)
    · exact hnb p hp
    · exact hnr a b hsh

/-- C6: `PortRange::parse` returns `Single p` exactly when the input
text is a bare 16-bit integer denoting `p`; returns `Range a b` exactly
when the text has the shape `start-end` with both parts bare 16-bit
integers and start strictly below end; and fails with an error for every
other shape, including `start-end` with start ≥ end. -/
theorem portrange_parse_characterization (s : String) :
    (∀ p, PortRange.parse s = .ok (.Single p) ↔ SpecBareU16 s.data p)
    ∧ (∀ a b, PortRange.parse s = .ok (.Range a b) ↔ SpecRangeShape s.data a b ∧ a < b)
    ∧ ((∃ e, PortRange.parse s = .error e) ↔
        ¬ ((∃ p, SpecBareU16 s.data p) ∨ ∃ a b, SpecRangeShape s.data a b ∧ a < b)) := by
  cases hu : u16FromChars s.data with
  | ok port =>
    have hpr : PortRange.parse s = .ok (.Single port) := by
      simp [PortRange.parse, u16FromStr, hu]
    have hbare : SpecBareU16 s.data port := (u16FromChars_ok_iff s.data port).mp hu
    refine ⟨?_, ?_, ?_⟩
    · intro p
      rw [hpr]
      constructor
      · intro h
        obtain rfl : port = p := PortRange.Single.inj (Except.ok.inj h)
        exact hbare
      · intro hp
        have h2 := (u16FromChars_ok_iff s.data p).mpr hp
        rw [hu] at h2
        obtain rfl := Except.ok.inj h2
        rfl
    · intro a b
      rw [hpr]
      refine iff_of_false ?_ ?_
      · intro h
        exact PortRange.noConfusion (Except.ok.inj h)
      · rintro ⟨⟨x, y, hshape, -, -⟩, -⟩
        have hnd := specBare_no_dash s.data port hbare
        rw [hshape] at hnd
        exact hnd (by simp)
    · rw [hpr]
      refine iff_of_false ?_ ?_
      · rintro ⟨e, he⟩
        exact Except.noConfusion he
      · intro hcon
        exact hcon (Or.inl ⟨port, hbare⟩)
  | error err =>
    have hnb : ∀ p, ¬ SpecBareU16 s.data p := by
      intro p hp
      have h2 := (u16FromChars_ok_iff s.data p).mpr hp
      rw [hu] at h2
      exact Except.noConfusion h2
    rcases hsplit : splitDash s.data with _ | ⟨x, _ | ⟨y, _ | ⟨z, rest3⟩⟩⟩
    · exact absurd hsplit (splitDash_ne_nil _)
    · -- one chunk: no dash in the text at all, parse fails with the format error
      have hnr : ∀ a b, ¬ SpecRangeShape s.data a b := by
        intro a b hsh
        obtain ⟨x', y', hs', -, -⟩ := (specRangeShape_iff_split s.data a b).mp hsh
        rw [hsplit] at hs'
        simp at hs'
      exact parse_error_wrap s hnb hnr "Port range must be in the format 'start-end'"
        (by simp [PortRange.parse, u16FromStr, hu, hsplit])
    · -- exactly two chunks: the start-end candidate shape
      have hr_iff : ∀ a b, SpecRangeShape s.data a b
          ↔ u16FromChars x = .ok a ∧ u16FromChars y = .ok b := by
        intro a b
        rw [specRangeShape_iff_split]
        constructor
        · rintro ⟨x', y', hs', hx', hy'⟩
          rw [hsplit] at hs'
          obtain ⟨rfl, htl⟩ := List.cons.inj hs'
          obtain ⟨rfl, -⟩ := List.cons.inj htl
          exact ⟨(u16FromChars_ok_iff _ _).mpr hx', (u16FromChars_ok_iff _ _).mpr hy'⟩
        · rintro ⟨hx', hy'⟩
          exact ⟨x, y, hsplit, (u16FromChars_ok_iff _ _).mp hx',
            (u16FromChars_ok_iff _ _).mp hy'⟩
      cases hx : u16FromChars x with
      | error e1 =>
        have hnr : ∀ a b, ¬ SpecRangeShape s.data a b := by
          intro a b hsh
          obtain ⟨ha, -⟩ := (hr_iff a b).mp hsh
          rw [hx] at ha
          exact Except.noConfusion ha
        exact parse_error_wrap s hnb hnr e1
          (by simp [PortRange.parse, u16FromStr, hu, hsplit, hx])
      | ok start =>
        cases hy : u16FromChars y with
        | error e2 =>
          have hnr : ∀ a b, ¬ SpecRangeShape s.data a b := by
            intro a b hsh
            obtain ⟨-, hb⟩ := (hr_iff a b).mp hsh
            rw [hy] at hb
            exact Except.noConfusion hb
          exact parse_error_wrap s hnb hnr e2
            (by simp [PortRange.parse, u16FromStr, hu, hsplit, hx, hy])
        | ok stop =>
          have hr_iff2 : ∀ a b, SpecRangeShape s.data a b ↔ a = start ∧ b = stop := by
            intro a b
            rw [hr_iff a b, hx, hy]
            constructor
            · rintro ⟨ha, hb⟩
              exact ⟨(Except.ok.inj ha).symm, (Except.ok.inj hb).symm⟩
            · rintro ⟨rfl, rfl⟩
              exact ⟨rfl, rfl⟩
          by_cases hge : start ≥ stop
          · have hnr : ∀ a b, ¬ (SpecRangeShape s.data a b ∧ a < b) := by
              rintro a b ⟨hsh, hlt⟩
              obtain ⟨rfl, rfl⟩ := (hr_iff2 a b).mp hsh
              omega
            refine ⟨?_, ?_, ?_⟩
            · intro p
              rw [show PortRange.parse s
                  = .error "End port must be greater than start port" from
                by simp [PortRange.parse, u16FromStr, hu, hsplit, hx, hy, hge]]
              exact iff_of_false (fun h => Except.noConfusion h) (hnb p)
            · intro a b
              rw [show PortRange.parse s
                  = .error "End port must be greater than start port" from
                by simp [PortRange.parse, u16FromStr, hu, hsplit, hx, hy, hge]]
              exact iff_of_false (fun h => Except.noConfusion h) (hnr a b)
            · rw [show PortRange.parse s
                  = .error "End port must be greater than start port" from
                by simp [PortRange.parse, u16FromStr, hu, hsplit, hx, hy, hge]]
              refine iff_of_true ⟨_, rfl⟩ ?_
              rintro (⟨p, hp⟩ | ⟨a, b, hab⟩)
              · exact hnb p hp
              · exact hnr a b hab
          · have hlt : start < stop := by omega
            have hpr : PortRange.parse s = .ok (.Range start stop) := by
              simp [PortRange.parse, u16FromStr, hu, hsplit, hx, hy, hge]
            refine ⟨?_, ?_, ?_⟩
            · intro p
              rw [hpr]
              refine iff_of_false ?_ (hnb p)
              intro h
              exact PortRange.noConfusion (Except.ok.inj h)
            · intro a b
              rw [hpr]
              constructor
              · intro h
                obtain ⟨rfl, rfl⟩ := PortRange.Range.inj (Except.ok.inj h)
                exact ⟨(hr_iff2 _ _).mpr ⟨rfl, rfl⟩, hlt⟩
              · rintro ⟨hsh, hlt'⟩
                obtain ⟨rfl, rfl⟩ := (hr_iff2 a b).mp hsh
                rfl
            · rw [hpr]
              refine iff_of_false ?_ ?_
              · rintro ⟨e, he⟩
                exact Except.noConfusion he
              · intro hcon
                exact hcon (Or.inr ⟨start, stop, (hr_iff2 _ _).mpr ⟨rfl, rfl⟩, hlt⟩)
    · -- three or more chunks: parse fails with the format error
      have hnr : ∀ a b, ¬ SpecRangeShape s.data a b := by
        intro a b hsh
        obtain ⟨x', y', hs', -, -⟩ := (specRangeShape_iff_split s.data a b).mp hsh
        rw [hsplit] at hs'
        simp at hs'
      exact parse_error_wrap s hnb hnr "Port range must be in the format 'start-end'"
        (by simp [PortRange.parse, u16FromStr, hu, hsplit])

end SafeNetwork
